import Mathlib

/-!
# Verification of `IceCertUtils/OpenSSLCertificateUtils.py`

A shallow embedding of the OpenSSL-backed certificate factory of the
`ice-certutils` repository, together with theorems settling the specification
claims about it.

The embedding models:
* the filesystem as a list of present paths,
* the external `openssl` process run as an oracle of success/failure outcomes
  held in the state, with its file effects taken from the ToolInvoker contract,
* Python string truthiness, `os.path.join` (for relative second component),
  `os.remove` (raising on a missing path) and `tempfile.mkstemp` (fresh names
  from a counter) explicitly.

Definitions follow `OpenSSLCertificateUtils.py`; the pieces that live in the
missing `CertificateUtils` module (the base `Certificate.destroy`, the `run`
method, `random.getrandbits`) are modelled from the spec and say so in their
doc comments.
-/

set_option maxRecDepth 16384

namespace IceCertUtils

/-- Python truthiness of a string: `if s:` is true iff `s` is nonempty. -/
def strTruthy (s : String) : Bool := !(s == "")

/-- Python truthiness of an optional string argument (`None` or a string). -/
def optTruthy : Option String → Bool
  | none => false
  | some s => strTruthy s

/-- The filesystem, as the list of paths that currently exist. -/
abbrev FileSystem := List String

/-- Creating a file at `p` (`os.write` to a fresh path): `p` becomes present. -/
def fsAdd (fs : FileSystem) (p : String) : FileSystem :=
  if fs.contains p then fs else p :: fs

/-- Removing the path `p` from the filesystem (total version, used where the
path is known to be present). -/
def fsRemove (fs : FileSystem) (p : String) : FileSystem :=
  fs.filter (fun q => !(q == p))

/-- `os.remove`: deletes the path, raising `FileNotFoundError` if it is absent. -/
def osRemove (fs : FileSystem) (p : String) : Except String FileSystem :=
  if fs.contains p then .ok (fsRemove fs p) else .error "FileNotFoundError"

/-- `os.path.join(a, b)` for a relative second component and a directory first
component without a trailing slash — the only shape this code uses
(`os.path.join(self.parent.home, alias + ".pem")`). -/
def osPathJoin (a b : String) : String := a ++ "/" ++ b

/-- Fresh temporary file names handed out by `tempfile.mkstemp`, modelled as a
counter-indexed family of distinct paths. -/
def tmpName (n : Nat) : String := "/tmp/tmp" ++ toString n

/-- Modelled from the spec: the `DistinguishedName` value type of the missing
`CertificateUtils` module — "ordered set of optional fields {country,
organizationalUnit, organization, locality, stateOrProvince, commonName,
emailAddress}", carried in the short attribute names this file reads
(`C`, `OU`, `O`, `L`, `ST`, `CN`, `emailAddress`); an absent field is the
empty string, which Python truthiness filters out. -/
structure DistinguishedName where
  C : String
  OU : String
  O : String
  L : String
  ST : String
  CN : String
  emailAddress : String
deriving DecidableEq, Repr

/-- The `dn` value carried by a certificate: either a `DistinguishedName`
object or a plain Python string (the `dn or ip or alias` fallback in
`create`). -/
inductive DNArg where
  | dn (d : DistinguishedName)
  | str (s : String)
deriving DecidableEq, Repr

/-- The attribute names `toDNSection` probes on the dn value. -/
def dnShortNames : List String := ["C", "OU", "O", "L", "ST", "CN", "emailAddress"]

/-- Python `hasattr(dn, a)` for the seven short names: true on a
`DistinguishedName` object, false on a plain string (a `str` has none of
these attributes). -/
def hasattrDN : DNArg → String → Bool
  | DNArg.dn _, a => dnShortNames.contains a
  | DNArg.str _, _ => false

/-- Python `getattr(dn, a)` for the seven short names. -/
def getattrDN : DNArg → String → String
  | DNArg.dn d, a =>
      if a = "C" then d.C
      else if a = "OU" then d.OU
      else if a = "O" then d.O
      else if a = "L" then d.L
      else if a = "ST" then d.ST
      else if a = "CN" then d.CN
      else if a = "emailAddress" then d.emailAddress
      else ""
  | DNArg.str _, _ => ""

/-- The `(long name, short attribute name)` pairs iterated by `toDNSection`,
in source order. -/
def dnPairs : List (String × String) :=
  [("countryName", "C"),
   ("organizationalUnitName", "OU"),
   ("organizationName", "O"),
   ("localityName", "L"),
   ("stateOrProvinceName", "ST"),
   ("commonName", "CN"),
   ("emailAddress", "emailAddress")]

/-- `toDNSection(dn)`: builds the `[ dn ]` configuration section, appending
`"{k} = {v}\n"` for each of the seven fields that the dn value has and that
is truthy (nonempty). -/
def toDNSection (dn : DNArg) : String :=
  dnPairs.foldl
    (fun s kv =>
      if hasattrDN dn kv.2 && strTruthy (getattrDN dn kv.2) then
        s ++ kv.1 ++ " = " ++ getattrDN dn kv.2 ++ "\n"
      else s)
    "[ dn ]\n"

/-- `OpenSSLCertificate.__init__`: artifact paths are derived from the owning
factory's home directory and the alias (`alias + ".pem"`,
`alias + "_key.pem"`). -/
structure OpenSSLCertificate where
  dn : DNArg
  aliasName : String
  pem : String
  key : String
deriving DecidableEq, Repr

/-- Build an `OpenSSLCertificate` exactly as `OpenSSLCertificate.__init__`
does from the parent's home, the dn and the alias. -/
def mkOpenSSLCertificate (home : String) (dn : DNArg) (aliasName : String) :
    OpenSSLCertificate :=
  { dn := dn
    aliasName := aliasName
    pem := osPathJoin home (aliasName ++ ".pem")
    key := osPathJoin home (aliasName ++ "_key.pem") }

/-- `OpenSSLCertificate.exists`: both artifacts are present on disk. -/
def certExists (fs : FileSystem) (cert : OpenSSLCertificate) : Bool :=
  fs.contains cert.pem && fs.contains cert.key

/-- The keyword arguments a call of `OpenSSLCertificateFactory.openSSL` can
carry (besides `cert`), in source order of consumption: `config`, `extfile`
and `password` are turned into temporary files by `openSSL` itself; the rest
are forwarded to the base class `run`. -/
structure OpenSSLArgs where
  config : Option String
  extfile : Option String
  password : Option String
  out : Option String
  inkey : Option String
  CAfile : Option String
  outform : Option String
  set_serial : Option Nat
  stdin : Option String
deriving DecidableEq, Repr

/-- One recorded run of the external `openssl` process: which certificate it
was for, the subcommand, the positional flags, the structured keyword
arguments and the built command line. -/
structure Invocation where
  cert : OpenSSLCertificate
  cmd : String
  args : List String
  ka : OpenSSLArgs
  command : String
deriving DecidableEq, Repr

/-- The state of an `OpenSSLCertificateFactory` together with its environment:
the configuration fields held by the base `CertificateFactory` (`home`, `dn`,
`keyalg`, `keysize`, `sigalg`, `validity`, `passpath`), the CA certificate,
the alias cache `certs`, and the modelled environment — filesystem, log of
toolkit invocations, `mkstemp` counter, the success/failure oracle for
external runs, and the pseudo-random seed. -/
structure FactoryState where
  home : String
  dn : DistinguishedName
  keyalg : String
  keysize : Nat
  sigalg : String
  validity : Nat
  passpath : String
  cacert : OpenSSLCertificate
  certs : List (String × OpenSSLCertificate)
  fs : FileSystem
  log : List Invocation
  tmpCounter : Nat
  outcomes : List Bool
  randSeed : Nat
deriving DecidableEq, Repr

/-- `str(None)` / a path option formatted into the command string. -/
def optPathStr : Option String → String
  | none => "None"
  | some p => p

/-- The command-line construction of `OpenSSLCertificateFactory.openSSL`
(lines 128–192 of the source), given the factory's configuration fields, the
certificates involved, and the temporary-file paths allocated for `config`,
`extfile` and `password`. -/
def buildCommand (keyalg : String) (keysize : Nat) (sigalg : String)
    (validity : Nat) (passpath : String) (cacert : OpenSSLCertificate)
    (cert : OpenSSLCertificate) (cmd : String) (args : List String)
    (cfgPath extPath passPath : Option String) : String :=
  let command := "openssl " ++ cmd
  -- consume config/extfile arguments
  let command := match cfgPath with
    | some p => command ++ " -config " ++ p
    | none => command
  let command := match extPath with
    | some p => command ++ " -extfile " ++ p
    | none => command
  -- key creation and certificate request parameters
  let command := if cmd = "req" then
      let command := command ++ " -keyform PEM -keyout " ++ cert.key ++
        " -newkey " ++ keyalg ++ ":" ++ toString keysize
      if args.contains "-x509" then
        command ++ " -out " ++ cert.pem ++ " -passout file:" ++ passpath
      else
        command ++ " -nodes"
    else command
  -- signature parameters for "req -x509" or "x509 -req"
  let command := if (cmd = "req" && args.contains "-x509") ||
      (cmd = "x509" && args.contains "-req") then
      command ++ " -" ++ sigalg ++ " -days " ++ toString validity
    else command
  -- certificate request signature parameters
  let command := if cmd = "x509" && args.contains "-req" then
      command ++ " -CA " ++ cacert.pem ++ " -CAkey " ++ cacert.key ++
        " -passin file:" ++ passpath ++ " -extensions ext -out " ++ cert.pem
    else command
  -- export certificate parameters
  let command := if cmd = "x509" && !args.contains "-req" then
      command ++ " -in " ++ cert.pem
    else if cmd = "pkcs12" then
      command ++ " -in " ++ cert.pem ++ " -name " ++ cert.aliasName ++
        " -export -passout file:" ++ optPathStr passPath
    else command
  command

/-- Modelled from the spec: the filesystem effect of the base class `run`
(missing `CertificateUtils` module) executing the built command, per the
ToolInvoker contract of §4.3 — `generate-request` "generate[s] a new key
pair" (the `-keyout` path), `self-sign-root` additionally writes the
self-signed certificate (`-out`), `sign-request` "produce[s] a signed
certificate" at the `-out` path, and the exports write the caller-specified
output path. A failing run writes nothing. -/
def runEffects (cmd : String) (args : List String) (cert : OpenSSLCertificate)
    (ka : OpenSSLArgs) (fs : FileSystem) : FileSystem :=
  if cmd = "req" && args.contains "-x509" then fsAdd (fsAdd fs cert.key) cert.pem
  else if cmd = "req" then fsAdd fs cert.key
  else if cmd = "x509" && args.contains "-req" then fsAdd fs cert.pem
  else match ka.out with
    | some p => fsAdd fs p
    | none => fs

/-- `OpenSSLCertificateFactory.openSSL`: allocates a temporary file for each
truthy `config`/`extfile`/`password` argument, builds the command line,
executes it via the base `run` (success decided by the state's outcome
oracle; its file effects by `runEffects`), and — in a `finally` block —
removes every temporary file before returning.  Returns the list of
temporary paths created, the result (`.ok` captured output / `.error` on
nonzero exit) and the final state. -/
def openSSL (s : FactoryState) (cert : OpenSSLCertificate) (cmd : String)
    (args : List String) (ka : OpenSSLArgs) :
    List String × Except String String × FactoryState :=
  -- consume config/extfile arguments (source loop over ["config", "extfile"])
  let (cfgPath, s1) :=
    if optTruthy ka.config then
      (some (tmpName s.tmpCounter),
       { s with tmpCounter := s.tmpCounter + 1,
                fs := fsAdd s.fs (tmpName s.tmpCounter) })
    else (none, s)
  let (extPath, s2) :=
    if optTruthy ka.extfile then
      (some (tmpName s1.tmpCounter),
       { s1 with tmpCounter := s1.tmpCounter + 1,
                 fs := fsAdd s1.fs (tmpName s1.tmpCounter) })
    else (none, s1)
  -- consume password argument: write password to safe temporary file
  let (passPath, s3) :=
    if optTruthy ka.password then
      (some (tmpName s2.tmpCounter),
       { s2 with tmpCounter := s2.tmpCounter + 1,
                 fs := fsAdd s2.fs (tmpName s2.tmpCounter) })
    else (none, s2)
  let tmpfiles := cfgPath.toList ++ extPath.toList ++ passPath.toList
  let command := buildCommand s3.keyalg s3.keysize s3.sigalg s3.validity
    s3.passpath s3.cacert cert cmd args cfgPath extPath passPath
  -- self.run(command, *args, **kargs): log it, draw its outcome
  let s4 := { s3 with log := s3.log ++ [(⟨cert, cmd, args, ka, command⟩ : Invocation)] }
  let (ok, s5) := match s4.outcomes with
    | [] => (true, s4)
    | b :: rest => (b, { s4 with outcomes := rest })
  let (res, s6) :=
    if ok then
      (Except.ok command, { s5 with fs := runEffects cmd args cert ka s5.fs })
    else
      (Except.error ("nonzero exit: " ++ command), s5)
  -- finally: remove temporary configuration files
  (tmpfiles, res, { s6 with fs := tmpfiles.foldl fsRemove s6.fs })

/-- The CA self-sign `config` template of `__init__` (source lines 75–85) up
to the `{dn}` placeholder, byte-for-byte including the 32-space triple-quote
indentation. -/
def caCfgA : String :=
  "\n                                [ req ]\n                                x509_extensions = ext\n                                distinguished_name = dn\n                                prompt = no\n                                [ ext ]\n                                basicConstraints = CA:true\n                                subjectKeyIdentifier = hash\n                                authorityKeyIdentifier = keyid:always,issuer:always\n                                "

/-- The CA self-sign `config` template after the `{dn}` placeholder. -/
def caCfgB : String := "\n                                "

/-- `"""…{dn}…""".format(dn=toDNSection(self.cacert.dn))` of `__init__`. -/
def caCfg (dn : DNArg) : String := caCfgA ++ toDNSection dn ++ caCfgB

/-- The certificate-request `config` template of `create` (source lines
107–112) up to the `{dn}` placeholder, with its 27-space indentation. -/
def reqCfgA : String :=
  "\n                           [ req ]\n                           distinguished_name = dn\n                           prompt = no\n                           "

/-- The certificate-request `config` template after the `{dn}` placeholder. -/
def reqCfgB : String := "\n                           "

/-- `"""…{dn}…""".format(dn=toDNSection(cert.dn))` of `create`. -/
def reqCfg (dn : DNArg) : String := reqCfgA ++ toDNSection dn ++ reqCfgB

/-- The signing `extfile` template of `create` (source lines 116–122) up to
the `{subAltName}` placeholder, with its 21-space indentation. -/
def extCfgA : String :=
  "\n                     [ ext ]\n                     subjectKeyIdentifier = hash\n                     authorityKeyIdentifier = keyid:always,issuer:always\n                     keyUsage = nonRepudiation, digitalSignature, keyEncipherment\n                     "

/-- The signing `extfile` template after the `{subAltName}` placeholder. -/
def extCfgB : String := "\n                     "

/-- `"""…{subAltName}…""".format(subAltName=…)` of `create`. -/
def extCfg (subAltName : String) : String := extCfgA ++ subAltName ++ extCfgB

/-- The `subAltName` computation of `create` (source lines 97–103 and the
`.format(dns=dns, ip=ip)` on line 122): the `if ip and dns / elif ip /
elif dns` chain under Python truthiness, already formatted. -/
def subAltNameFor (ip dns : Option String) : String :=
  if optTruthy ip && optTruthy dns then
    "subjectAltName = DNS: " ++ dns.getD "" ++ ", IP: " ++ ip.getD ""
  else if optTruthy ip then
    "subjectAltName = IP: " ++ ip.getD ""
  else if optTruthy dns then
    "subjectAltName = DNS: " ++ dns.getD ""
  else ""

/-- The `dn or ip or alias` fallback of `create` (source line 92): an
explicit `dn` object is truthy; a falsy (absent/empty) `ip` falls through to
the alias, which is used unconditionally as the last operand. -/
def dnOr (dn : Option DistinguishedName) (ip : Option String)
    (aliasName : String) : DNArg :=
  match dn with
  | some d => DNArg.dn d
  | none =>
    match ip with
    | some i => if strTruthy i then DNArg.str i else DNArg.str aliasName
    | none => DNArg.str aliasName

/-- Modelled from the spec: `random.getrandbits(64)` (Python stdlib) returns
"a caller-chosen random 64-bit serial number" — an integer in `[0, 2^64)` —
drawn here from the state's pseudo-random seed. -/
def getrandbits64 (s : FactoryState) : Nat × FactoryState :=
  (s.randSeed % 2 ^ 64, { s with randSeed := s.randSeed / 2 ^ 64 })

/-- `OpenSSLCertificateFactory.create(alias, dn=None, ip=None, dns=None)`:
return the cached certificate if the alias is cached; otherwise build the
certificate value, adopt it if its artifacts exist on disk; otherwise
generate a request (`openssl req`, new key) and sign it (`openssl x509 -req`
with a fresh random 64-bit serial and the subjectAltName extension file),
then cache it.  A raising toolkit run propagates as `.error`. -/
def create (s : FactoryState) (aliasName : String)
    (dn : Option DistinguishedName) (ip dns : Option String) :
    Except String OpenSSLCertificate × FactoryState :=
  match s.certs.lookup aliasName with
  | some c => (.ok c, s)
  | none =>
    let cert := mkOpenSSLCertificate s.home (dnOr dn ip aliasName) aliasName
    if certExists s.fs cert then
      (.ok cert, { s with certs := (aliasName, cert) :: s.certs })
    else
      let subAltName := subAltNameFor ip dns
      -- generate a certificate request
      -- fields: config, extfile, password, out, inkey, CAfile, outform, set_serial, stdin
      let step1 := openSSL s cert "req" []
        ⟨some (reqCfg cert.dn), none, none, none, none, none, none, none, none⟩
      match step1.2.1 with
      | .error e => (.error e, step1.2.2)
      | .ok req =>
        -- sign the certificate
        let drawn := getrandbits64 step1.2.2
        let step2 := openSSL drawn.2 cert "x509" ["-req"]
          ⟨none, some (extCfg subAltName), none, none, none, none, none,
           some drawn.1, some req⟩
        match step2.2.1 with
        | .error e => (.error e, step2.2.2)
        | .ok _ =>
          (.ok cert, { step2.2.2 with certs := (aliasName, cert) :: step2.2.2.certs })

/-- `OpenSSLCertificate.savePKCS12(path, password, chain)`: the CA's own
certificate is exported with `-nokeys` (no `inkey`); a leaf is exported with
its key, with `-chain` and the CA certificate when `chain` is true. -/
def savePKCS12 (s : FactoryState) (cert : OpenSSLCertificate)
    (path password : String) (chain : Bool) :
    List String × Except String String × FactoryState :=
  if cert = s.cacert then
    -- if saving CA cert, just save the certificate without the key
    openSSL s cert "pkcs12" ["-nokeys"]
      ⟨none, none, some password, some path, none, none, none, none, none⟩
  else if chain then
    -- save the certificate chain to PKCS12
    openSSL s cert "pkcs12" ["-chain"]
      ⟨none, none, some password, some path, some cert.key, some s.cacert.pem,
       none, none, none⟩
  else
    -- save the certificate to PKCS12
    openSSL s cert "pkcs12" []
      ⟨none, none, some password, some path, some cert.key, none, none, none,
       none⟩

/-- The guarded key removal of `OpenSSLCertificate.destroy` (source lines
60–61): `if os.path.exists(self.key): os.remove(self.key)`. -/
def removeKeyStep (s : FactoryState) (cert : OpenSSLCertificate) :
    Except String FactoryState :=
  if s.fs.contains cert.key then
    match osRemove s.fs cert.key with
    | .ok fs1 => .ok { s with fs := fs1 }
    | .error e => .error e
  else .ok s

/-- Modelled from the spec: the base `Certificate.destroy` of the missing
`CertificateUtils` module — "removes the certificate artifact" (§4.4) and
"drops the cache entry" (§3); removing an absent artifact is a fatal
`ArtifactStateError` (§7), i.e. an unguarded `os.remove` raising. -/
def baseDestroy (s : FactoryState) (cert : OpenSSLCertificate) :
    Except String FactoryState :=
  match osRemove s.fs cert.pem with
  | .ok fs1 =>
      .ok { s with fs := fs1,
                   certs := s.certs.filter (fun kv => !(kv.1 == cert.aliasName)) }
  | .error e => .error e

/-- `OpenSSLCertificate.destroy`: remove the private key if present, then
delegate to the base class destroy. -/
def destroy (s : FactoryState) (cert : OpenSSLCertificate) :
    Except String FactoryState :=
  match removeKeyStep s cert with
  | .ok s1 => baseDestroy s1 cert
  | .error e => .error e

/-- The configuration the base `CertificateFactory.__init__` stores on the
factory (spec §6: key algorithm and size, signature algorithm, validity
days, home directory; plus the CA passphrase file path it maintains). -/
structure FactoryConfig where
  home : String
  dn : DistinguishedName
  keyalg : String
  keysize : Nat
  sigalg : String
  validity : Nat
  passpath : String
deriving DecidableEq, Repr

/-- `OpenSSLCertificateFactory.__init__` over an initial environment
(filesystem, run-outcome oracle, random seed): builds the CA certificate
value for alias `"ca"` and, only if its artifacts are not both on disk,
self-signs it with `openssl req -x509` and the CA extension config.  A
failing toolkit run propagates as a constructor exception. -/
def mkFactory (cfg : FactoryConfig) (fs : FileSystem) (outcomes : List Bool)
    (randSeed : Nat) : Except String FactoryState :=
  let cacert := mkOpenSSLCertificate cfg.home (DNArg.dn cfg.dn) "ca"
  let s : FactoryState :=
    { home := cfg.home, dn := cfg.dn, keyalg := cfg.keyalg,
      keysize := cfg.keysize, sigalg := cfg.sigalg, validity := cfg.validity,
      passpath := cfg.passpath, cacert := cacert, certs := [], fs := fs,
      log := [], tmpCounter := 0, outcomes := outcomes, randSeed := randSeed }
  if certExists s.fs cacert then .ok s
  else
    let step := openSSL s cacert "req" ["-x509"]
      ⟨some (caCfg cacert.dn), none, none, none, none, none, none, none, none⟩
    match step.2.1 with
    | .ok _ => .ok step.2.2
    | .error e => .error e

/-- Does `pat` start the character list `hay`? (An executable prefix test.) -/
def startsWithL : List Char → List Char → Bool
  | [], _ => true
  | _ :: _, [] => false
  | p :: ps, h :: hs => p == h && startsWithL ps hs

/-- Does `pat` occur as a contiguous run inside `hay`? -/
def infixL (pat : List Char) : List Char → Bool
  | [] => startsWithL pat []
  | h :: t => startsWithL pat (h :: t) || infixL pat t

/-- Does the string `pat` occur as a substring of `s`? -/
def strOccurs (pat s : String) : Bool := infixL pat.data s.data

instance {ε α : Type} [DecidableEq ε] [DecidableEq α] :
    DecidableEq (Except ε α) := fun a b =>
  match a, b with
  | .error e, .error f => decidable_of_iff (e = f) (by simp)
  | .error _, .ok _ => isFalse (by simp)
  | .ok _, .error _ => isFalse (by simp)
  | .ok x, .ok y => decidable_of_iff (x = y) (by simp)

/-- Concatenate a list of strings (used to state what a rendered DN section
contains). -/
def concatAll : List String → String
  | [] => ""
  | a :: l => a ++ concatAll l

/-- The populated DN fields, in the fixed source order, as
`(long name, value)` pairs: exactly those of the seven fields that the dn
value has and that are truthy. -/
def populatedDNFields (dn : DNArg) : List (String × String) :=
  dnPairs.filterMap (fun kv =>
    if hasattrDN dn kv.2 && strTruthy (getattrDN dn kv.2) then
      some (kv.1, getattrDN dn kv.2)
    else none)

/-- Did a call complete without raising? -/
def exceptIsOk {α : Type} : Except String α → Bool
  | .ok _ => true
  | .error _ => false

/-- A sample empty distinguished name. -/
def dn0 : DistinguishedName := ⟨"", "", "", "", "", "", ""⟩

/-- The CA certificate value of a factory with home `/h` and dn `dn0`. -/
def ca0 : OpenSSLCertificate := mkOpenSSLCertificate "/h" (DNArg.dn dn0) "ca"

/-- A sample factory state: CA artifacts on disk, empty cache, two
successful runs available. -/
def s0 : FactoryState :=
  { home := "/h", dn := dn0, keyalg := "rsa", keysize := 2048,
    sigalg := "sha256", validity := 825, passpath := "/h/pass",
    cacert := ca0, certs := [], fs := ["/h/ca.pem", "/h/ca_key.pem"],
    log := [], tmpCounter := 0, outcomes := [true, true], randSeed := 5 }

/-- `s0` with a failing second run: request generation succeeds, signing
fails. -/
def s6 : FactoryState := { s0 with outcomes := [true, false] }

/-- A sample leaf certificate with alias `a`. -/
def certA : OpenSSLCertificate := mkOpenSSLCertificate "/h" (DNArg.str "a") "a"

/-- `s0` with `certA` already cached under alias `a`. -/
def sCached : FactoryState := { s0 with certs := [("a", certA)] }

/-- A sample leaf certificate with alias `x`. -/
def certX : OpenSSLCertificate := mkOpenSSLCertificate "/h" (DNArg.str "x") "x"

/-- A state whose filesystem holds both artifacts of `certX`. -/
def sBoth : FactoryState :=
  { s0 with fs := ["/h/x.pem", "/h/x_key.pem", "/h/ca.pem", "/h/ca_key.pem"] }

/-- A sample factory configuration for home `/h`. -/
def cfg0 : FactoryConfig := ⟨"/h", dn0, "rsa", 2048, "sha256", 825, "/h/pass"⟩

/-- The state `mkFactory cfg0` produces when the CA artifacts are already on
disk: nothing is run, nothing consumed. -/
def sInit : FactoryState :=
  { home := "/h", dn := dn0, keyalg := "rsa", keysize := 2048,
    sigalg := "sha256", validity := 825, passpath := "/h/pass",
    cacert := ca0, certs := [], fs := ["/h/ca.pem", "/h/ca_key.pem"],
    log := [], tmpCounter := 0, outcomes := [], randSeed := 0 }

/-- A string with a nonempty left part is nonempty. -/
theorem strApp_ne_empty (a b : String) (h : a ≠ "") : a ++ b ≠ "" := by
  intro hc
  apply h
  have hd := congrArg String.data hc
  rw [String.data_append] at hd
  have hnil : a.data = [] := (List.append_eq_nil.mp hd).1
  cases a with | mk l =>
  cases hnil
  rfl

/-- Python truthiness survives appending on the right. -/
theorem strTruthy_append (a b : String) (h : strTruthy a = true) :
    strTruthy (a ++ b) = true := by
  have ha : a ≠ "" := by
    intro hc
    rw [hc] at h
    exact absurd h (by decide)
  have : a ++ b ≠ "" := strApp_ne_empty a b ha
  simpa [strTruthy] using this

/-- The configuration strings passed by `__init__` and `create` are always
truthy: their templates start with a nonempty literal. -/
theorem strTruthy_caCfg (d : DNArg) : strTruthy (caCfg d) = true := by
  have h1 : strTruthy caCfgA = true := by decide
  exact strTruthy_append _ _ (strTruthy_append _ _ h1)

theorem strTruthy_reqCfg (d : DNArg) : strTruthy (reqCfg d) = true := by
  have h1 : strTruthy reqCfgA = true := by decide
  exact strTruthy_append _ _ (strTruthy_append _ _ h1)

theorem strTruthy_extCfg (san : String) : strTruthy (extCfg san) = true := by
  have h1 : strTruthy extCfgA = true := by decide
  exact strTruthy_append _ _ (strTruthy_append _ _ h1)

/-- Whatever survives a chain of removals was present before. -/
theorem mem_foldl_fsRemove (l : List String) (fs : FileSystem) (q : String)
    (h : q ∈ l.foldl fsRemove fs) : q ∈ fs := by
  induction l generalizing fs with
  | nil => exact h
  | cons a t ih =>
      have h1 : q ∈ fsRemove fs a := ih _ h
      exact (List.mem_filter.mp h1).1

/-- After the `finally` loop removes every temporary file, none of them is
present. -/
theorem not_mem_foldl_fsRemove (l : List String) (fs : FileSystem) (p : String)
    (h : p ∈ l) : p ∉ l.foldl fsRemove fs := by
  induction l generalizing fs with
  | nil => cases h
  | cons a t ih =>
      intro hmem
      rcases List.mem_cons.mp h with rfl | hpt
      · rcases List.mem_cons.mp h with _ | hpt
        · have h1 : p ∈ fsRemove fs p := mem_foldl_fsRemove _ _ _ hmem
          have h2 := (List.mem_filter.mp h1).2
          simp at h2
        · exact ih _ hpt hmem
      · exact ih _ hpt hmem

/-- A prefix of `a` is a prefix of `a ++ b`. -/
theorem startsWithL_append (pat a b : List Char)
    (h : startsWithL pat a = true) : startsWithL pat (a ++ b) = true := by
  induction pat generalizing a with
  | nil => rfl
  | cons p ps ih =>
      cases a with
      | nil => simp [startsWithL] at h
      | cons x xs =>
          simp only [startsWithL, Bool.and_eq_true] at h
          simpa [startsWithL, h.1] using ih xs h.2

/-- An occurrence inside `a` is an occurrence inside `a ++ b`. -/
theorem infixL_append_left (pat a b : List Char)
    (h : infixL pat a = true) : infixL pat (a ++ b) = true := by
  induction a with
  | nil =>
      have hp : pat = [] := by
        cases pat with
        | nil => rfl
        | cons p ps => simp [infixL, startsWithL] at h
      subst hp
      cases b with
      | nil => rfl
      | cons x xs => simp [infixL, startsWithL]
  | cons x xs ih =>
      simp only [infixL, Bool.or_eq_true] at h
      rcases h with h | h
      · have := startsWithL_append pat (x :: xs) b h
        simp only [List.cons_append, infixL, Bool.or_eq_true] at this ⊢
        left
        simpa using this
      · simp only [List.cons_append, infixL, Bool.or_eq_true]
        right
        exact ih h

/-- A substring occurrence survives appending on the right. -/
theorem strOccurs_append (pat a b : String) (h : strOccurs pat a = true) :
    strOccurs pat (a ++ b) = true := by
  simp only [strOccurs, String.data_append]
  exact infixL_append_left _ _ _ h

/-! ## Behavioural lemmas about `openSSL` and `create` -/

/-- `openSSL` never touches the alias cache. -/
theorem openSSL_certs_eq (s : FactoryState) (cert : OpenSSLCertificate)
    (cmd : String) (args : List String) (ka : OpenSSLArgs) :
    ((openSSL s cert cmd args ka).2.2).certs = s.certs := by
  simp only [openSSL]
  repeat' split
  all_goals rfl

/-- Every `openSSL` call appends exactly one invocation, carrying its
certificate, subcommand, flags and keyword arguments, to the log. -/
theorem openSSL_log_ex (s : FactoryState) (cert : OpenSSLCertificate)
    (cmd : String) (args : List String) (ka : OpenSSLArgs) :
    ∃ C, ((openSSL s cert cmd args ka).2.2).log =
      s.log ++ [(⟨cert, cmd, args, ka, C⟩ : Invocation)] := by
  simp only [openSSL]
  repeat' split
  all_goals exact ⟨_, rfl⟩

/-- Full description of an `openSSL` call that passes only a (truthy)
`config` argument: one temporary file is allocated and removed again, the
invocation is logged, one outcome is consumed, and on success the run
effects are applied. -/
theorem openSSL_config_eq (s : FactoryState) (cert : OpenSSLCertificate)
    (cmd : String) (args : List String) (cfg : String) (b : Bool)
    (rest : List Bool) (hcfg : strTruthy cfg = true)
    (houtc : s.outcomes = b :: rest) :
    openSSL s cert cmd args ⟨some cfg, none, none, none, none, none, none, none, none⟩ =
      ([tmpName s.tmpCounter],
       (if b then
          Except.ok (buildCommand s.keyalg s.keysize s.sigalg s.validity
            s.passpath s.cacert cert cmd args (some (tmpName s.tmpCounter)) none none)
        else
          Except.error ("nonzero exit: " ++ buildCommand s.keyalg s.keysize
            s.sigalg s.validity s.passpath s.cacert cert cmd args
            (some (tmpName s.tmpCounter)) none none)),
       { s with
          tmpCounter := s.tmpCounter + 1,
          log := s.log ++ [(⟨cert, cmd, args,
            ⟨some cfg, none, none, none, none, none, none, none, none⟩,
            buildCommand s.keyalg s.keysize s.sigalg s.validity s.passpath
              s.cacert cert cmd args (some (tmpName s.tmpCounter)) none none⟩ : Invocation)],
          outcomes := rest,
          fs := fsRemove
            (if b then
              runEffects cmd args cert
                ⟨some cfg, none, none, none, none, none, none, none, none⟩
                (fsAdd s.fs (tmpName s.tmpCounter))
             else fsAdd s.fs (tmpName s.tmpCounter))
            (tmpName s.tmpCounter) }) := by
  cases b <;>
    simp only [openSSL, optTruthy, hcfg, houtc, if_true, if_false,
      Bool.false_eq_true, ite_true, ite_false, Option.toList, List.foldl] <;> rfl

/-- Full description of an `openSSL` call that passes a (truthy) `extfile`
together with `set_serial` and `stdin` — the signing call of `create`. -/
theorem openSSL_extfile_eq (s : FactoryState) (cert : OpenSSLCertificate)
    (cmd : String) (args : List String) (ext r : String) (n : Nat) (b : Bool)
    (rest : List Bool) (hext : strTruthy ext = true)
    (houtc : s.outcomes = b :: rest) :
    openSSL s cert cmd args
        ⟨none, some ext, none, none, none, none, none, some n, some r⟩ =
      ([tmpName s.tmpCounter],
       (if b then
          Except.ok (buildCommand s.keyalg s.keysize s.sigalg s.validity
            s.passpath s.cacert cert cmd args none (some (tmpName s.tmpCounter)) none)
        else
          Except.error ("nonzero exit: " ++ buildCommand s.keyalg s.keysize
            s.sigalg s.validity s.passpath s.cacert cert cmd args
            none (some (tmpName s.tmpCounter)) none)),
       { s with
          tmpCounter := s.tmpCounter + 1,
          log := s.log ++ [(⟨cert, cmd, args,
            ⟨none, some ext, none, none, none, none, none, some n, some r⟩,
            buildCommand s.keyalg s.keysize s.sigalg s.validity s.passpath
              s.cacert cert cmd args none (some (tmpName s.tmpCounter)) none⟩ : Invocation)],
          outcomes := rest,
          fs := fsRemove
            (if b then
              runEffects cmd args cert
                ⟨none, some ext, none, none, none, none, none, some n, some r⟩
                (fsAdd s.fs (tmpName s.tmpCounter))
             else fsAdd s.fs (tmpName s.tmpCounter))
            (tmpName s.tmpCounter) }) := by
  cases b <;>
    simp only [openSSL, optTruthy, hext, houtc, if_true, if_false,
      Bool.false_eq_true, ite_true, ite_false, Option.toList, List.foldl] <;> rfl

/-- Full description of the issuing path of `create`: alias not cached,
artifacts not on disk, both toolkit runs succeeding.  The request run and
the signing run are logged in order, the signing run carries the random
64-bit serial and the extension file built from the subjectAltName, and the
new certificate is cached. -/
theorem create_issue (s : FactoryState) (A : String)
    (dn : Option DistinguishedName) (ip dns : Option String)
    (rest : List Bool) (cert : OpenSSLCertificate)
    (hcert : cert = mkOpenSSLCertificate s.home (dnOr dn ip A) A)
    (hlookup : s.certs.lookup A = none)
    (hex : certExists s.fs cert = false)
    (houtc : s.outcomes = true :: true :: rest) :
    create s A dn ip dns =
      (.ok cert,
       { s with
          certs := (A, cert) :: s.certs,
          fs := fsRemove
            (runEffects "x509" ["-req"] cert
              ⟨none, some (extCfg (subAltNameFor ip dns)), none, none, none,
               none, none, some (s.randSeed % 2 ^ 64),
               some (buildCommand s.keyalg s.keysize s.sigalg s.validity
                 s.passpath s.cacert cert "req" [] (some (tmpName s.tmpCounter))
                 none none)⟩
              (fsAdd
                (fsRemove
                  (runEffects "req" [] cert
                    ⟨some (reqCfg cert.dn), none, none, none, none, none, none,
                     none, none⟩
                    (fsAdd s.fs (tmpName s.tmpCounter)))
                  (tmpName s.tmpCounter))
                (tmpName (s.tmpCounter + 1))))
            (tmpName (s.tmpCounter + 1)),
          log := s.log ++
            [(⟨cert, "req", [],
               ⟨some (reqCfg cert.dn), none, none, none, none, none, none,
                none, none⟩,
               buildCommand s.keyalg s.keysize s.sigalg s.validity s.passpath
                 s.cacert cert "req" [] (some (tmpName s.tmpCounter)) none none⟩ : Invocation),
             (⟨cert, "x509", ["-req"],
               ⟨none, some (extCfg (subAltNameFor ip dns)), none, none, none,
                none, none, some (s.randSeed % 2 ^ 64),
                some (buildCommand s.keyalg s.keysize s.sigalg s.validity
                  s.passpath s.cacert cert "req" [] (some (tmpName s.tmpCounter))
                  none none)⟩,
               buildCommand s.keyalg s.keysize s.sigalg s.validity s.passpath
                 s.cacert cert "x509" ["-req"] none (some (tmpName (s.tmpCounter + 1))) none⟩ : Invocation)],
          tmpCounter := s.tmpCounter + 1 + 1,
          outcomes := rest,
          randSeed := s.randSeed / 2 ^ 64 }) := by
  subst hcert
  simp only [create, hlookup, hex, Bool.false_eq_true, ite_false, if_false]
  rw [openSSL_config_eq _ _ _ _ _ true (true :: rest) (strTruthy_reqCfg _) houtc]
  simp only [ite_true, getrandbits64]
  rw [openSSL_extfile_eq _ _ _ _ _ _ _ true rest (strTruthy_extCfg _) rfl]
  simp only [ite_true, List.append_assoc, List.cons_append, List.nil_append]

/-- `openSSL` always finishes by removing its temporary files from some
intermediate filesystem. -/
theorem openSSL_fs_ex (s : FactoryState) (cert : OpenSSLCertificate)
    (cmd : String) (args : List String) (ka : OpenSSLArgs) :
    ∃ fsMid, ((openSSL s cert cmd args ka).2.2).fs =
      ((openSSL s cert cmd args ka).1).foldl fsRemove fsMid := by
  simp only [openSSL]
  repeat' split
  all_goals exact ⟨_, rfl⟩

/-- A successful `create` leaves its alias bound to the returned certificate
in the cache. -/
theorem create_ok_lookup (s : FactoryState) (A : String)
    (dn : Option DistinguishedName) (ip dns : Option String)
    (c : OpenSSLCertificate) (s' : FactoryState)
    (h : create s A dn ip dns = (.ok c, s')) :
    s'.certs.lookup A = some c := by
  simp only [create] at h
  split at h
  next c0 hl =>
    simp only [Prod.mk.injEq, Except.ok.injEq] at h
    obtain ⟨rfl, rfl⟩ := h
    exact hl
  next hl =>
    split at h
    · simp only [Prod.mk.injEq, Except.ok.injEq] at h
      obtain ⟨rfl, rfl⟩ := h
      simp [List.lookup]
    · split at h
      next e he => simp at h
      next req hreq =>
        split at h
        next e he => simp at h
        next r hr =>
          simp only [Prod.mk.injEq, Except.ok.injEq] at h
          obtain ⟨rfl, rfl⟩ := h
          simp [List.lookup]

/-- A cached alias is returned unchanged. -/
theorem create_cached (s : FactoryState) (A : String)
    (dn : Option DistinguishedName) (ip dns : Option String)
    (c : OpenSSLCertificate) (h : s.certs.lookup A = some c) :
    create s A dn ip dns = (.ok c, s) := by
  simp only [create, h]

/-- A `create` call that raises leaves the alias cache exactly as it was,
with nothing cached under the requested alias. -/
theorem create_error_cache (s : FactoryState) (A : String)
    (dn : Option DistinguishedName) (ip dns : Option String)
    (h : exceptIsOk (create s A dn ip dns).1 = false) :
    ((create s A dn ip dns).2).certs = s.certs ∧
      ((create s A dn ip dns).2).certs.lookup A = none := by
  rcases hout : create s A dn ip dns with ⟨r, s'⟩
  rw [hout] at h
  simp only at h ⊢
  simp only [create] at hout
  split at hout
  next c0 hl =>
    obtain ⟨rfl, rfl⟩ := Prod.mk.injEq .. ▸ hout
    simp [exceptIsOk] at h
  next hl =>
    split at hout
    · obtain ⟨rfl, rfl⟩ := Prod.mk.injEq .. ▸ hout
      simp [exceptIsOk] at h
    · split at hout
      next e he =>
        obtain ⟨rfl, rfl⟩ := Prod.mk.injEq .. ▸ hout
        rw [openSSL_certs_eq]
        exact ⟨rfl, hl⟩
      next req hreq =>
        split at hout
        next e he =>
          obtain ⟨rfl, rfl⟩ := Prod.mk.injEq .. ▸ hout
          rw [openSSL_certs_eq]
          simp only [getrandbits64]
          rw [openSSL_certs_eq]
          exact ⟨rfl, hl⟩
        next r2 hr2 =>
          obtain ⟨rfl, rfl⟩ := Prod.mk.injEq .. ▸ hout
          simp [exceptIsOk] at h

/-- The two artifact paths derived from one alias are distinct (they differ
in length). -/
theorem mkCert_key_ne_pem (home : String) (d : DNArg) (A : String) :
    (mkOpenSSLCertificate home d A).key ≠ (mkOpenSSLCertificate home d A).pem := by
  simp only [mkOpenSSLCertificate, osPathJoin]
  intro hc
  have hlen := congrArg String.length hc
  simp only [String.length_append] at hlen
  have e1 : ("_key.pem" : String).length = 8 := by decide
  have e2 : (".pem" : String).length = 4 := by decide
  rw [e1, e2] at hlen
  omega

/-- Rendering the DN section is filtering then concatenating, for any list of
field pairs. -/
theorem dn_foldl_eq (dn : DNArg) (l : List (String × String)) (init : String) :
    l.foldl
      (fun s kv =>
        if hasattrDN dn kv.2 && strTruthy (getattrDN dn kv.2) then
          s ++ kv.1 ++ " = " ++ getattrDN dn kv.2 ++ "\n"
        else s)
      init =
    init ++ concatAll
      ((l.filterMap (fun kv =>
        if hasattrDN dn kv.2 && strTruthy (getattrDN dn kv.2) then
          some (kv.1, getattrDN dn kv.2)
        else none)).map (fun kv => kv.1 ++ " = " ++ kv.2 ++ "\n")) := by
  induction l generalizing init with
  | nil => simp [concatAll, String.append_empty]
  | cons kv t ih =>
      by_cases h : (hasattrDN dn kv.2 && strTruthy (getattrDN dn kv.2)) = true
      · simp only [List.foldl_cons, List.filterMap_cons, h, if_pos, List.map_cons,
          concatAll, ite_true]
        rw [ih]
        simp [String.append_assoc]
      · simp only [Bool.not_eq_true] at h
        simp only [List.foldl_cons, List.filterMap_cons, h, Bool.false_eq_true,
          ite_false, if_false]
        exact ih init

/-! ## Claim theorems -/

/-- C3 (counterexample): for the DN with only `C = "US"` populated,
`toDNSection` renders the line with the long field name `countryName`, not
with the short field name `C` as the claim states. -/
theorem c3_counterexample :
    toDNSection (DNArg.dn ⟨"US", "", "", "", "", "", ""⟩) =
      "[ dn ]\ncountryName = US\n" ∧
    toDNSection (DNArg.dn ⟨"US", "", "", "", "", "", ""⟩) ≠
      "[ dn ]\nC = US\n" ∧
    strOccurs "C = US" (toDNSection (DNArg.dn ⟨"US", "", "", "", "", "", ""⟩)) =
      false := by
  decide

/-- C3 (amended): for every DistinguishedName value, `toDNSection` produces a
configuration section that lists exactly the populated fields, omits every
unset or empty field, preserves the fixed field order
{C, OU, O, L, ST, CN, emailAddress}, and renders each populated field as a
line `longFieldName = value` (the long OpenSSL name, e.g.
`countryName = value`, selected by the short attribute name). -/
theorem c3_amended_toDNSection (d : DNArg) :
    toDNSection d =
      "[ dn ]\n" ++
        concatAll ((populatedDNFields d).map
          (fun kv => kv.1 ++ " = " ++ kv.2 ++ "\n")) := by
  simp only [toDNSection, populatedDNFields]
  exact dn_foldl_eq d dnPairs "[ dn ]\n"

/-- C10: when `create(alias, dn=None, …)` falls back to the `ip` value or the
alias string as the certificate's DN, that plain string has none of the
seven DistinguishedName attributes, so `toDNSection` produces a `[ dn ]`
section with zero fields, and the generated request configuration carries no
subject field at all (in particular no `commonName`). -/
theorem c10_fallback_dn_empty (s : FactoryState) (A : String)
    (ip dns : Option String) (rest : List Bool) (cert : OpenSSLCertificate)
    (str a : String)
    (hcert : cert = mkOpenSSLCertificate s.home (dnOr none ip A) A)
    (hlookup : s.certs.lookup A = none)
    (hex : certExists s.fs cert = false)
    (houtc : s.outcomes = true :: true :: rest) :
    toDNSection (DNArg.str str) = "[ dn ]\n" ∧
    hasattrDN (DNArg.str str) a = false ∧
    toDNSection (dnOr none ip A) = "[ dn ]\n" ∧
    (∃ inv₁ inv₂, ((create s A none ip dns).2).log = s.log ++ [inv₁, inv₂] ∧
      inv₁.cmd = "req" ∧
      inv₁.ka.config = some (reqCfgA ++ "[ dn ]\n" ++ reqCfgB) ∧
      strOccurs "commonName" (reqCfgA ++ "[ dn ]\n" ++ reqCfgB) = false) := by
  have hstr : ∀ t, toDNSection (DNArg.str t) = "[ dn ]\n" := fun _ => rfl
  have hdn : toDNSection (dnOr none ip A) = "[ dn ]\n" := by
    simp only [dnOr]
    cases ip with
    | none => exact hstr A
    | some i =>
        by_cases hi : strTruthy i = true
        · simp [hi, hstr]
        · simp only [Bool.not_eq_true] at hi
          simp [hi, hstr]
  refine ⟨hstr str, rfl, hdn, ?_⟩
  rw [create_issue s A none ip dns rest cert hcert hlookup hex houtc]
  subst hcert
  refine ⟨_, _, rfl, rfl, ?_, by decide⟩
  simp only [mkOpenSSLCertificate, reqCfg, hdn]

/-- C1: for an alias different from `"ca"` whose first `create` call
succeeded, a second `create` call (with any arguments) returns the very same
certificate — hence identical key and certificate artifact paths — and the
state, in particular the invocation log, is unchanged: no new request
generation or signing happens.  Moreover (second conjunct) an alias that is
not cached but whose artifacts exist on disk is adopted into the cache and
returned without any toolkit invocation. -/
theorem c1_create_idempotent (s : FactoryState) (A : String)
    (dn dn' bdn : Option DistinguishedName)
    (ip dns ip' dns' bip bdns : Option String)
    (c₁ : OpenSSLCertificate) (s₁ : FactoryState)
    (t : FactoryState) (B : String) (certB : OpenSSLCertificate)
    (hA : A ≠ "ca")
    (h1 : create s A dn ip dns = (.ok c₁, s₁))
    (hcertB : certB = mkOpenSSLCertificate t.home (dnOr bdn bip B) B)
    (hlookupB : t.certs.lookup B = none)
    (hexB : certExists t.fs certB = true) :
    create s₁ A dn' ip' dns' = (.ok c₁, s₁) ∧
    create t B bdn bip bdns = (.ok certB, { t with certs := (B, certB) :: t.certs }) := by
  constructor
  · exact create_cached s₁ A dn' ip' dns' c₁ (create_ok_lookup s A dn ip dns c₁ s₁ h1)
  · subst hcertB
    simp only [create, hlookupB, hexB, if_true]

/-- C2: every temporary file created by an `openSSL` invocation (config
file, extfile, passphrase file) is deleted from the filesystem before the
call returns, whether the underlying run succeeds or raises. -/
theorem c2_tmpfiles_removed (s : FactoryState) (cert : OpenSSLCertificate)
    (cmd : String) (args : List String) (ka : OpenSSLArgs) (p : String)
    (hp : p ∈ (openSSL s cert cmd args ka).1) :
    p ∉ ((openSSL s cert cmd args ka).2.2).fs := by
  obtain ⟨fsMid, hm⟩ := openSSL_fs_ex s cert cmd args ka
  rw [hm]
  exact not_mem_foldl_fsRemove _ _ _ hp

/-- C5: `savePKCS12` on the certificate that is the owning authority's own
root runs the export with the `-nokeys` flag and without any `inkey`
argument, for every password and chain argument; the key-including branches
(which pass `inkey := cert.key`) are taken exactly for non-root
certificates. -/
theorem c5_ca_pkcs12_nokeys (s : FactoryState) (cert : OpenSSLCertificate)
    (path pw : String) (chain : Bool) :
    (cert = s.cacert →
      ∃ C, ((savePKCS12 s cert path pw chain).2.2).log =
        s.log ++ [(⟨cert, "pkcs12", ["-nokeys"],
          ⟨none, none, some pw, some path, none, none, none, none, none⟩, C⟩ : Invocation)]) ∧
    (cert ≠ s.cacert →
      ∃ inv C, ((savePKCS12 s cert path pw chain).2.2).log = s.log ++ [inv] ∧
        inv = (⟨cert, "pkcs12", if chain then ["-chain"] else [],
          ⟨none, none, some pw, some path, some cert.key,
           if chain then some s.cacert.pem else none, none, none, none⟩, C⟩ : Invocation)) := by
  constructor
  · intro hc
    simp only [savePKCS12, hc, if_pos rfl]
    exact openSSL_log_ex _ _ _ _ _
  · intro hc
    by_cases hch : chain
    · simp only [savePKCS12, if_neg hc, hch, if_true, ite_true]
      obtain ⟨C, hC⟩ := openSSL_log_ex s cert "pkcs12" ["-chain"]
        ⟨none, none, some pw, some path, some cert.key, some s.cacert.pem,
         none, none, none⟩
      exact ⟨_, C, hC, rfl⟩
    · simp only [savePKCS12, if_neg hc, hch, if_false, ite_false]
      obtain ⟨C, hC⟩ := openSSL_log_ex s cert "pkcs12" []
        ⟨none, none, some pw, some path, some cert.key, none, none, none, none⟩
      exact ⟨_, C, hC, rfl⟩

/-- C4: a `create` call that issues a new certificate builds the
subjectAltName of the signing extension file from whichever of `ip`/`dns`
were supplied: DNS only gives a single DNS entry, IP only a single IP entry,
both give the DNS entry before the IP entry, and with neither the extension
file contains no subjectAltName at all. -/
theorem c4_subject_alt_name (s : FactoryState) (A : String)
    (dn : Option DistinguishedName) (ip dns : Option String)
    (rest : List Bool) (cert : OpenSSLCertificate) (i d : String)
    (hcert : cert = mkOpenSSLCertificate s.home (dnOr dn ip A) A)
    (hlookup : s.certs.lookup A = none)
    (hex : certExists s.fs cert = false)
    (houtc : s.outcomes = true :: true :: rest)
    (hi : strTruthy i = true) (hd : strTruthy d = true) :
    (∃ inv₁ inv₂, ((create s A dn ip dns).2).log = s.log ++ [inv₁, inv₂] ∧
      inv₂.cmd = "x509" ∧ inv₂.args = ["-req"] ∧
      inv₂.ka.extfile = some (extCfg (subAltNameFor ip dns))) ∧
    subAltNameFor none (some d) = "subjectAltName = DNS: " ++ d ∧
    subAltNameFor (some i) none = "subjectAltName = IP: " ++ i ∧
    subAltNameFor (some i) (some d) =
      "subjectAltName = DNS: " ++ d ++ ", IP: " ++ i ∧
    subAltNameFor none none = "" ∧
    strOccurs "subjectAltName" (extCfg (subAltNameFor none none)) = false := by
  refine ⟨?_, ?_, ?_, ?_, rfl, by decide⟩
  · rw [create_issue s A dn ip dns rest cert hcert hlookup hex houtc]
    exact ⟨_, _, rfl, rfl, rfl, rfl⟩
  · simp [subAltNameFor, optTruthy, hd]
  · simp [subAltNameFor, optTruthy, hi]
  · simp [subAltNameFor, optTruthy, hi, hd]

/-- C9: the signing step of an issuing `create` uses a serial number drawn as
a random 64-bit value (an integer in `[0, 2^64)`), and its extension
configuration contains the `keyUsage` line listing exactly nonRepudiation,
digitalSignature and keyEncipherment, plus the subject and authority key
identifier extension lines. -/
theorem c9_sign_serial_extensions (s : FactoryState) (A : String)
    (dn : Option DistinguishedName) (ip dns : Option String)
    (rest : List Bool) (cert : OpenSSLCertificate)
    (hcert : cert = mkOpenSSLCertificate s.home (dnOr dn ip A) A)
    (hlookup : s.certs.lookup A = none)
    (hex : certExists s.fs cert = false)
    (houtc : s.outcomes = true :: true :: rest) :
    ∃ inv₁ inv₂, ((create s A dn ip dns).2).log = s.log ++ [inv₁, inv₂] ∧
      inv₂.cmd = "x509" ∧ inv₂.args = ["-req"] ∧
      inv₂.ka.set_serial = some (s.randSeed % 2 ^ 64) ∧
      s.randSeed % 2 ^ 64 < 2 ^ 64 ∧
      inv₂.ka.extfile = some (extCfg (subAltNameFor ip dns)) ∧
      strOccurs "keyUsage = nonRepudiation, digitalSignature, keyEncipherment"
        (extCfg (subAltNameFor ip dns)) = true ∧
      strOccurs "subjectKeyIdentifier = hash"
        (extCfg (subAltNameFor ip dns)) = true ∧
      strOccurs "authorityKeyIdentifier = keyid:always,issuer:always"
        (extCfg (subAltNameFor ip dns)) = true := by
  have hocc : ∀ pat : String, strOccurs pat extCfgA = true →
      strOccurs pat (extCfg (subAltNameFor ip dns)) = true := by
    intro pat hp
    rw [extCfg]
    exact strOccurs_append _ _ _ (strOccurs_append _ _ _ hp)
  rw [create_issue s A dn ip dns rest cert hcert hlookup hex houtc]
  refine ⟨_, _, rfl, rfl, rfl, rfl, Nat.mod_lt _ (by norm_num), rfl,
    hocc _ (by decide), hocc _ (by decide), hocc _ (by decide)⟩

/-- C6 (counterexample): with the CA on disk and a run oracle that lets
request generation succeed and signing fail, `create "x"` raises and leaves
the key artifact on disk while the certificate artifact is absent — so
neither "both artifacts exist and the certificate is cached" nor "neither
artifact exists" holds, refuting the claimed disjunction. -/
theorem c6_counterexample :
    exceptIsOk (create s6 "x" none none none).1 = false ∧
    ((create s6 "x" none none none).2).certs.lookup "x" = none ∧
    ¬(("/h/x.pem" ∈ ((create s6 "x" none none none).2).fs ∧
       "/h/x_key.pem" ∈ ((create s6 "x" none none none).2).fs) ∨
      ("/h/x.pem" ∉ ((create s6 "x" none none none).2).fs ∧
       "/h/x_key.pem" ∉ ((create s6 "x" none none none).2).fs)) := by
  decide

/-- C6 (amended): a failed `create` caches nothing — the alias cache is
exactly as before the call and nothing is cached under the alias; no
"both artifacts or neither" guarantee holds on disk: the key artifact can
remain without the certificate artifact when request generation succeeded
and signing failed, as the concrete run in the last conjuncts shows. -/
theorem c6_amended_failed_create (s : FactoryState) (A : String)
    (dn : Option DistinguishedName) (ip dns : Option String)
    (h : exceptIsOk (create s A dn ip dns).1 = false) :
    ((create s A dn ip dns).2).certs = s.certs ∧
    ((create s A dn ip dns).2).certs.lookup A = none ∧
    exceptIsOk (create s6 "x" none none none).1 = false ∧
    "/h/x_key.pem" ∈ ((create s6 "x" none none none).2).fs ∧
    "/h/x.pem" ∉ ((create s6 "x" none none none).2).fs := by
  obtain ⟨h1, h2⟩ := create_error_cache s A dn ip dns h
  exact ⟨h1, h2, by decide, by decide, by decide⟩

/-- C7: at factory construction the CA root (alias `"ca"`) is self-signed
only if its key and certificate artifacts are not both already on disk: when
they are, construction performs no toolkit invocation at all (empty log,
untouched filesystem and outcome oracle); when they are not, the
construction log is exactly one `openssl req -x509` self-sign invocation
whose config carries the CA-marking `basicConstraints = CA:true`
extension. -/
theorem c7_ca_root_bootstrap (cfg : FactoryConfig) (fs : FileSystem)
    (outcomes : List Bool) (seed : Nat) (s' : FactoryState)
    (hok : mkFactory cfg fs outcomes seed = .ok s') :
    (certExists fs (mkOpenSSLCertificate cfg.home (DNArg.dn cfg.dn) "ca") = true →
      s'.log = [] ∧ s'.fs = fs ∧ s'.outcomes = outcomes) ∧
    (certExists fs (mkOpenSSLCertificate cfg.home (DNArg.dn cfg.dn) "ca") = false →
      ∃ C, s'.log =
        [(⟨mkOpenSSLCertificate cfg.home (DNArg.dn cfg.dn) "ca", "req", ["-x509"],
          ⟨some (caCfg (DNArg.dn cfg.dn)), none, none, none, none, none, none,
           none, none⟩, C⟩ : Invocation)] ∧
      strOccurs "basicConstraints = CA:true" (caCfg (DNArg.dn cfg.dn)) = true) := by
  by_cases he : certExists fs (mkOpenSSLCertificate cfg.home (DNArg.dn cfg.dn) "ca") = true
  · constructor
    · intro _
      simp only [mkFactory, he, if_true] at hok
      obtain rfl : _ = s' := Except.ok.inj hok
      exact ⟨rfl, rfl, rfl⟩
    · intro hf
      rw [he] at hf
      cases hf
  · simp only [Bool.not_eq_true] at he
    constructor
    · intro ht
      rw [he] at ht
      cases ht
    · intro _
      simp only [mkFactory, he, Bool.false_eq_true, if_false, ite_false] at hok
      split at hok
      next r hr =>
        obtain rfl : _ = s' := Except.ok.inj hok
        obtain ⟨C, hC⟩ := openSSL_log_ex _ _ _ _ _
        refine ⟨C, ?_, ?_⟩
        · rw [hC]
          simp only [List.nil_append]
          rfl
        · have h1 : strOccurs "basicConstraints = CA:true" caCfgA = true := by decide
          rw [caCfg]
          exact strOccurs_append _ _ _ (strOccurs_append _ _ _ h1)
      next e hr => cases hok

/-- C8: destroying a certificate whose artifacts exist removes the private
key artifact and then the certificate artifact, so a subsequent `exists()`
is false; and because the key removal is guarded by an existence check, the
key-removal step of a second `destroy` call does not raise for the
already-missing key file (it is a no-op). -/
theorem c8_destroy_removes_both (home : String) (d : DNArg) (A : String)
    (s : FactoryState) (cert : OpenSSLCertificate)
    (hcert : cert = mkOpenSSLCertificate home d A)
    (h : certExists s.fs cert = true) :
    ∃ s', destroy s cert = .ok s' ∧
      certExists s'.fs cert = false ∧
      cert.key ∉ s'.fs ∧ cert.pem ∉ s'.fs ∧
      removeKeyStep s' cert = .ok s' := by
  have hkp : cert.key ≠ cert.pem := by rw [hcert]; exact mkCert_key_ne_pem home d A
  simp only [certExists, Bool.and_eq_true] at h
  obtain ⟨hpem, hkey⟩ := h
  have hpemM : cert.pem ∈ s.fs := by simpa using hpem
  have hs1 : removeKeyStep s cert = .ok { s with fs := fsRemove s.fs cert.key } := by
    simp only [removeKeyStep, osRemove, hkey, if_true, ite_true]
  have hpem1c : (fsRemove s.fs cert.key).contains cert.pem = true := by
    simp [fsRemove, List.mem_filter, hpemM, Ne.symm hkp]
  refine ⟨{ s with
      fs := fsRemove (fsRemove s.fs cert.key) cert.pem,
      certs := s.certs.filter (fun kv => !(kv.1 == cert.aliasName)) },
    ?_, ?_, ?_, ?_, ?_⟩
  · simp only [destroy, hs1, baseDestroy, osRemove, hpem1c, if_true, ite_true]
  · simp [certExists, fsRemove, List.mem_filter]
  · simp [fsRemove, List.mem_filter]
  · simp [fsRemove, List.mem_filter]
  · have hnk : (fsRemove (fsRemove s.fs cert.key) cert.pem).contains cert.key = false := by
      simp [fsRemove, List.mem_filter]
    simp only [removeKeyStep, hnk, Bool.false_eq_true, if_false, ite_false]

theorem c1_create_idempotent_witness :
    create sCached "a" none none none = (.ok certA, sCached) ∧
    create sBoth "x" none none none =
      (.ok certX, { sBoth with certs := ("x", certX) :: sBoth.certs }) :=
  c1_create_idempotent sCached "a" none none none none none none none none
    none certA sCached sBoth "x" certX (by decide) rfl rfl rfl (by decide)

theorem c2_tmpfiles_removed_witness :
    tmpName 0 ∉ ((openSSL s0 ca0 "req" ["-x509"]
      ⟨some (caCfg (DNArg.dn dn0)), none, none, none, none, none, none, none,
       none⟩).2.2).fs :=
  c2_tmpfiles_removed s0 ca0 "req" ["-x509"]
    ⟨some (caCfg (DNArg.dn dn0)), none, none, none, none, none, none, none,
     none⟩ (tmpName 0) (by decide)

theorem c4_subject_alt_name_witness :
    (∃ inv₁ inv₂,
      ((create s0 "x" none none (some "a.example.com")).2).log =
        s0.log ++ [inv₁, inv₂] ∧
      inv₂.cmd = "x509" ∧ inv₂.args = ["-req"] ∧
      inv₂.ka.extfile =
        some (extCfg (subAltNameFor none (some "a.example.com")))) ∧
    subAltNameFor none (some "a.example.com") =
      "subjectAltName = DNS: " ++ "a.example.com" ∧
    subAltNameFor (some "10.0.0.1") none =
      "subjectAltName = IP: " ++ "10.0.0.1" ∧
    subAltNameFor (some "10.0.0.1") (some "a.example.com") =
      "subjectAltName = DNS: " ++ "a.example.com" ++ ", IP: " ++ "10.0.0.1" ∧
    subAltNameFor none none = "" ∧
    strOccurs "subjectAltName" (extCfg (subAltNameFor none none)) = false :=
  c4_subject_alt_name s0 "x" none none (some "a.example.com") [] certX
    "10.0.0.1" "a.example.com" rfl rfl (by decide) rfl (by decide) (by decide)

theorem c5_ca_pkcs12_nokeys_witness :
    (∃ C, ((savePKCS12 s0 ca0 "/out.p12" "pw" true).2.2).log =
      s0.log ++ [(⟨ca0, "pkcs12", ["-nokeys"],
        ⟨none, none, some "pw", some "/out.p12", none, none, none, none,
         none⟩, C⟩ : Invocation)]) ∧
    (∃ inv C, ((savePKCS12 s0 certA "/out.p12" "pw" true).2.2).log =
        s0.log ++ [inv] ∧
      inv = (⟨certA, "pkcs12", ["-chain"],
        ⟨none, none, some "pw", some "/out.p12", some certA.key,
         some s0.cacert.pem, none, none, none⟩, C⟩ : Invocation)) :=
  ⟨(c5_ca_pkcs12_nokeys s0 ca0 "/out.p12" "pw" true).1 rfl,
   (c5_ca_pkcs12_nokeys s0 certA "/out.p12" "pw" true).2 (by decide)⟩

theorem c6_amended_failed_create_witness :
    ((create s6 "x" none none none).2).certs = s6.certs ∧
    ((create s6 "x" none none none).2).certs.lookup "x" = none ∧
    exceptIsOk (create s6 "x" none none none).1 = false ∧
    "/h/x_key.pem" ∈ ((create s6 "x" none none none).2).fs ∧
    "/h/x.pem" ∉ ((create s6 "x" none none none).2).fs :=
  c6_amended_failed_create s6 "x" none none none (by decide)

theorem c7_ca_root_bootstrap_witness :
    (certExists ["/h/ca.pem", "/h/ca_key.pem"]
        (mkOpenSSLCertificate cfg0.home (DNArg.dn cfg0.dn) "ca") = true →
      sInit.log = [] ∧ sInit.fs = ["/h/ca.pem", "/h/ca_key.pem"] ∧
        sInit.outcomes = []) ∧
    (certExists ["/h/ca.pem", "/h/ca_key.pem"]
        (mkOpenSSLCertificate cfg0.home (DNArg.dn cfg0.dn) "ca") = false →
      ∃ C, sInit.log =
        [(⟨mkOpenSSLCertificate cfg0.home (DNArg.dn cfg0.dn) "ca", "req",
          ["-x509"],
          ⟨some (caCfg (DNArg.dn cfg0.dn)), none, none, none, none, none,
           none, none, none⟩, C⟩ : Invocation)] ∧
      strOccurs "basicConstraints = CA:true" (caCfg (DNArg.dn cfg0.dn)) = true) :=
  c7_ca_root_bootstrap cfg0 ["/h/ca.pem", "/h/ca_key.pem"] [] 0 sInit (by decide)

theorem c8_destroy_removes_both_witness :
    ∃ s', destroy sBoth certX = .ok s' ∧
      certExists s'.fs certX = false ∧
      certX.key ∉ s'.fs ∧ certX.pem ∉ s'.fs ∧
      removeKeyStep s' certX = .ok s' :=
  c8_destroy_removes_both "/h" (DNArg.str "x") "x" sBoth certX rfl (by decide)

theorem c9_sign_serial_extensions_witness :
    ∃ inv₁ inv₂,
      ((create s0 "x" none (some "10.0.0.1") (some "b.example.com")).2).log =
        s0.log ++ [inv₁, inv₂] ∧
      inv₂.cmd = "x509" ∧ inv₂.args = ["-req"] ∧
      inv₂.ka.set_serial = some (s0.randSeed % 2 ^ 64) ∧
      s0.randSeed % 2 ^ 64 < 2 ^ 64 ∧
      inv₂.ka.extfile =
        some (extCfg (subAltNameFor (some "10.0.0.1") (some "b.example.com"))) ∧
      strOccurs "keyUsage = nonRepudiation, digitalSignature, keyEncipherment"
        (extCfg (subAltNameFor (some "10.0.0.1") (some "b.example.com"))) = true ∧
      strOccurs "subjectKeyIdentifier = hash"
        (extCfg (subAltNameFor (some "10.0.0.1") (some "b.example.com"))) = true ∧
      strOccurs "authorityKeyIdentifier = keyid:always,issuer:always"
        (extCfg (subAltNameFor (some "10.0.0.1") (some "b.example.com"))) = true :=
  c9_sign_serial_extensions s0 "x" none (some "10.0.0.1") (some "b.example.com")
    [] (mkOpenSSLCertificate "/h" (DNArg.str "10.0.0.1") "x") rfl rfl
    (by decide) rfl

theorem c10_fallback_dn_empty_witness :
    toDNSection (DNArg.str "server1") = "[ dn ]\n" ∧
    hasattrDN (DNArg.str "server1") "CN" = false ∧
    toDNSection (dnOr none none "x") = "[ dn ]\n" ∧
    (∃ inv₁ inv₂, ((create s0 "x" none none none).2).log = s0.log ++ [inv₁, inv₂] ∧
      inv₁.cmd = "req" ∧
      inv₁.ka.config = some (reqCfgA ++ "[ dn ]\n" ++ reqCfgB) ∧
      strOccurs "commonName" (reqCfgA ++ "[ dn ]\n" ++ reqCfgB) = false) :=
  c10_fallback_dn_empty s0 "x" none none [] certX "server1" "CN" rfl rfl
    (by decide) rfl

end IceCertUtils
